import Mathlib

/-!
Verification of the research-os / jarvis_m4 claim pipeline.

This file gives a shallow embedding, in Lean 4, of the components of the
repository that the specification's claims concern:

* `RetrievalEngine` (src/jarvis_m4/services/retrieval_engine.py),
* `EvidenceBasedDebate` and `DebateResult` (src/jarvis_m4/services/evidence_debate.py),
* `CalibrationLayer` (src/jarvis_m4/services/calibration.py),
* `DeduplicationEngine` (src/research_os/ingestion/deduplication.py),
* `InMemoryBackend` (src/jarvis_m4/services/graph_backend.py),
* `CausalGraphV2` (src/jarvis_m4/services/causal_graph.py),
* `UnifiedPipelineV2.process_paper_stream` (src/jarvis_m4/main 2.py).

Modelling conventions:

* Python floats are modelled by `ℚ` (all the constants in the source are
  decimal literals, so every comparison the claims mention is exact).
* Python dicts are modelled by insertion-ordered association lists with
  Python's assignment semantics: `d[k] = v` replaces the value in place
  when `k` is present and appends otherwise.
* External collaborators (the sentence-transformers embedder, the LLM
  debate agents, FAISS's approximate HNSW search, sklearn's
  `cosine_similarity`, Python's per-process salted `hash`) are modelled
  as explicit oracle parameters: the code under verification treats them
  as black boxes, and every theorem below quantifies over them.
* Fallible code returns `Except`/`Option`; code with no failure path is a
  total function.
-/

/-! ## Python dictionaries as insertion-ordered association lists -/

/-- Python dict assignment `d[k] = v`: replace in place if the key is
present (keeping its position), append otherwise. -/
def pyInsert {κ α : Type} [DecidableEq κ] :
    List (κ × α) → κ → α → List (κ × α)
  | [], k, v => [(k, v)]
  | (k1, v1) :: rest, k, v =>
    if k1 = k then (k, v) :: rest else (k1, v1) :: pyInsert rest k v

/-- Python dict lookup `d.get(k)`. -/
def pyFind {κ α : Type} [DecidableEq κ] :
    List (κ × α) → κ → Option α
  | [], _ => none
  | (k1, v1) :: rest, k => if k1 = k then some v1 else pyFind rest k

/-! ## RetrievalEngine (src/jarvis_m4/services/retrieval_engine.py)

The engine holds a FAISS `IndexHNSWFlat` (whose stored rows we model as
the list `vectors`, in insertion order, so `ntotal = vectors.length`) and
three Python-dict side tables.  The metadata type is a parameter `μ`
because the call sites store claim dictionaries there. -/

structure RetrievalEngine (μ : Type) where
  vectors : List (List ℚ)
  id_to_metadata : List (String × μ)
  id_to_index : List (String × Nat)
  index_to_id : List (Nat × String)
deriving Repr

/-- `self.index.ntotal`. -/
def RetrievalEngine.ntotal {μ : Type} (e : RetrievalEngine μ) : Nat :=
  e.vectors.length

/-- A fresh engine: empty FAISS index and empty side tables. -/
def RetrievalEngine.initial (μ : Type) : RetrievalEngine μ :=
  ⟨[], [], [], []⟩

/-- `RetrievalEngine.index_claim` (retrieval_engine.py lines 61-82).  The
source performs no duplicate check: it appends the embedding to FAISS at
position `ntotal` and then assigns the three dict entries, overwriting any
existing entry for `claim_id`.  There is no failure path.  (The optional
Chroma side store is disabled-by-default external state and is not part of
the vector index contract.) -/
def RetrievalEngine.index_claim {μ : Type} (e : RetrievalEngine μ)
    (claim_id : String) (embedding : List ℚ) (metadata : μ) :
    RetrievalEngine μ :=
  let faiss_idx := e.ntotal
  { vectors := e.vectors ++ [embedding]
    id_to_index := pyInsert e.id_to_index claim_id faiss_idx
    index_to_id := pyInsert e.index_to_id faiss_idx claim_id
    id_to_metadata := pyInsert e.id_to_metadata claim_id metadata }

/-! ## CalibrationLayer (src/jarvis_m4/services/calibration.py)

`_load_model` is a stub and `_save_model` is a placeholder, so a freshly
constructed layer always has `is_fitted = False`.  A trained isotonic
model is an external sklearn object; we model it as an opaque rational
function carried by the `fitted` field. -/

structure CalibrationLayer where
  fitted : Option (ℚ → ℚ)

/-- `CalibrationLayer.calibrate` (calibration.py lines 46-68): untrained
mode dampens by 0.9, trained mode applies the isotonic model; the textual
interpretation of the calibrated value uses cut-points 0.3 / 0.6 / 0.85. -/
def CalibrationLayer.calibrate (c : CalibrationLayer)
    (raw_confidence : ℚ) : ℚ × String :=
  let calibrated :=
    match c.fitted with
    | none => raw_confidence * (9 / 10)
    | some model => model raw_confidence
  let desc :=
    if calibrated < 3 / 10 then "Uncertain / Likely Noise"
    else if calibrated < 6 / 10 then "Weak Evidence"
    else if calibrated < 85 / 100 then "Moderate Confidence"
    else "High Confidence"
  (calibrated, desc)

/-- The spec's four interpretive bands (spec section 4.D). -/
inductive Band where
  | Uncertain
  | Weak
  | Moderate
  | High
deriving DecidableEq, Repr

/-- The band determined by the spec's cut-points 0.3 / 0.6 / 0.85,
written from the spec's words for comparison with the code's branches. -/
def specBand (calibrated : ℚ) : Band :=
  if calibrated < 3 / 10 then Band.Uncertain
  else if calibrated < 6 / 10 then Band.Weak
  else if calibrated < 85 / 100 then Band.Moderate
  else Band.High

/-- The description string the source attaches to each band. -/
def bandDesc : Band → String
  | Band.Uncertain => "Uncertain / Likely Noise"
  | Band.Weak => "Weak Evidence"
  | Band.Moderate => "Moderate Confidence"
  | Band.High => "High Confidence"

/-! ## Debate structures (src/jarvis_m4/services/evidence_debate.py) -/

/-- `DebateResult` (evidence_debate.py lines 7-16).  The pydantic model;
`confidence` is the raw adjudicator score, `calibrated_confidence` the
calibrated one, `debate_log` the transcript. -/
structure DebateResult where
  verdict : String
  confidence : ℚ
  calibrated_confidence : ℚ
  confidence_desc : String
  citations : List String
  requires_human : Bool
  debate_log : List String
  agent_confidences : List (String × ℚ)
deriving DecidableEq, Repr

/-- The claim dictionaries that flow through the pipeline: built in
`process_paper_stream` and stored as index metadata.  A missing
`specter2_embedding` key is `none`. -/
structure ClaimDict where
  claim_id : String
  paper_id : String
  text : String
  specter2_embedding : Option (List ℚ)
deriving DecidableEq, Repr

/-- A search result of `RetrievalEngine.search_by_embedding`
(retrieval_engine.py lines 126-131). -/
structure SearchHit where
  claim_id : String
  text : String
  similarity_score : ℚ
  metadata : ClaimDict
deriving DecidableEq, Repr

/-- FAISS `index.search` on an `IndexHNSWFlat` is an approximate
nearest-neighbour query; its output is not a function of the stored
vectors alone in any way the library documents, so we model the call as
an oracle taking the stored rows, the query and `k` and returning the
`(distance, index)` pairs (`-1` marks a missing entry, as in FAISS). -/
def AnnOracle : Type :=
  List (List ℚ) → List ℚ → Nat → List (ℚ × Int)

/-- The default metadata Python produces for `id_to_metadata.get(claim_id, {})`
when the id is absent (an empty dict: every field lookup on it yields the
code's fallback `""` / missing key). -/
def ClaimDict.emptyDict : ClaimDict :=
  { claim_id := "", paper_id := "", text := "", specter2_embedding := none }

/-- `RetrievalEngine.search_by_embedding` (retrieval_engine.py lines
95-133): delegate to FAISS, drop `-1` indices and indices with no
(or falsy) mapped id, convert L2 distance to `1 / (1 + dist)`, filter by
`min_similarity`, attach metadata. -/
def RetrievalEngine.search_by_embedding (ann : AnnOracle)
    (e : RetrievalEngine ClaimDict) (embedding : List ℚ)
    (top_k : Nat) (min_similarity : ℚ) : List SearchHit :=
  if e.ntotal = 0 then []
  else
    (ann e.vectors embedding (min top_k e.ntotal)).filterMap (fun di =>
      if di.2 = -1 then none
      else
        match pyFind e.index_to_id di.2.toNat with
        | none => none
        | some claim_id =>
          if claim_id = "" then none
          else
            let similarity := 1 / (1 + di.1)
            if similarity < min_similarity then none
            else
              let metadata :=
                (pyFind e.id_to_metadata claim_id).getD ClaimDict.emptyDict
              some { claim_id := claim_id, text := metadata.text,
                     similarity_score := similarity, metadata := metadata })

/-- `RetrievalEngine.search` (retrieval_engine.py lines 84-93): embed the
query text via the sentence-transformers model (an external collaborator,
modelled as the oracle `embedder`) and search by the resulting vector. -/
def RetrievalEngine.search (embedder : String → List ℚ) (ann : AnnOracle)
    (e : RetrievalEngine ClaimDict) (query_text : String)
    (top_k : Nat) (min_similarity : ℚ) : List SearchHit :=
  RetrievalEngine.search_by_embedding ann e (embedder query_text)
    top_k min_similarity

/-- The dictionary returned by `DebateAgents.run_debate`, read with
`.get` and per-key defaults in `debate_claim_pair`. -/
structure RawDebate where
  verdict : Option String
  confidence : Option ℚ
  log : Option (List String)

/-- The external collaborators `debate_claim_pair` depends on. -/
structure DebateEnv where
  embedder : String → List ℚ
  ann : AnnOracle
  run_debate : String → String → RawDebate
  calibrator : CalibrationLayer

/-- `np.dot` on two equal-length vectors. -/
def npDot (a b : List ℚ) : ℚ :=
  (List.zipWith (fun x y => x * y) a b).sum

/-- Python's `"_".join(parts)`. -/
def joinUnderscore : List String → String
  | [] => ""
  | [s] => s
  | s :: rest => s ++ "_" ++ joinUnderscore rest

/-- `EvidenceBasedDebate._get_cache_key` (evidence_debate.py lines 57-59):
`"_".join(sorted([id_a, id_b]))`, Python's stable ascending sort on
strings being lexicographic on code points. -/
def cacheKey (id_a id_b : String) : String :=
  joinUnderscore (List.insertionSort (fun x y => x ≤ y) [id_a, id_b])

/-- The fixed result stored on the `sim < 0.3` prefilter branch
(evidence_debate.py lines 89-103). -/
def lowSimilarityResult : DebateResult :=
  { verdict := "uncertain", confidence := 0, calibrated_confidence := 0,
    confidence_desc := "Unrelated", citations := [], requires_human := false,
    debate_log := ["Skipped due to low similarity (<0.3)"],
    agent_confidences := [] }

/-- The fixed result stored on the `sim > 0.95` prefilter branch
(evidence_debate.py lines 104-118). -/
def highSimilarityResult : DebateResult :=
  { verdict := "supports", confidence := 1, calibrated_confidence := 99 / 100,
    confidence_desc := "High Confidence (Duplicate)", citations := [],
    requires_human := false,
    debate_log := ["Skipped due to high similarity (>0.95)"],
    agent_confidences := [] }

/-- Whether the character list `p` is an initial segment of `s`. -/
def chunkAt : List Char → List Char → Bool
  | [], _ => true
  | _ :: _, [] => false
  | p :: ps, c :: cs => p = c && chunkAt ps cs

/-- Whether `p` occurs contiguously somewhere in `s`. -/
def occursIn (p : List Char) : List Char → Bool
  | [] => chunkAt p []
  | c :: cs => chunkAt p (c :: cs) || occursIn p cs

/-- Python's `sub in s` substring test. -/
def strOccursIn (sub s : String) : Bool :=
  occursIn sub.data s.data

/-- `EvidenceBasedDebate._extract_citations` (evidence_debate.py lines
189-199): collect every evidence id that occurs as a substring of some
transcript line.  The source materializes a Python `set` (whose iteration
order is unspecified); the model lists the ids in first-occurrence order
of the same double loop. -/
def extract_citations (debate_log : List String)
    (evidence_pool : List SearchHit) : List String :=
  debate_log.foldl (fun acc entry =>
    evidence_pool.foldl (fun acc2 ev =>
      if strOccursIn ev.claim_id entry && !(acc2.contains ev.claim_id)
      then acc2 ++ [ev.claim_id] else acc2) acc) []

/-- `EvidenceBasedDebate._should_flag_for_review` (evidence_debate.py
lines 201-227), with the constructor constants
`high_confidence_threshold = 0.85` and `min_citations_required = 2`. -/
def should_flag_for_review (confidence : ℚ) (num_citations : Nat)
    (evidence_pool : List SearchHit) : Bool :=
  if confidence < 85 / 100 then true
  else if num_citations < 2 then true
  else if evidence_pool.length < 3 then true
  else
    let avg_evidence_quality :=
      (evidence_pool.map (fun e => e.similarity_score)).sum /
        ((max evidence_pool.length 1 : Nat) : ℚ)
    if avg_evidence_quality < 7 / 10 then true else false

/-- `EvidenceBasedDebate.debate_claim_pair` (evidence_debate.py lines
61-187), as a pure transformer of the cache.  The returned Bool records
whether the external adjudicator (`self.agents.run_debate`) was invoked.
Caching stores `result.dict()` and cache hits rebuild
`DebateResult(**cached_data)`; that round trip is the identity on values,
so the model stores the result itself. -/
def debate_claim_pair (env : DebateEnv)
    (retrieval : RetrievalEngine ClaimDict)
    (cache : List (String × DebateResult))
    (claim_a claim_b : ClaimDict) :
    DebateResult × List (String × DebateResult) × Bool :=
  let cache_key := cacheKey claim_a.claim_id claim_b.claim_id
  match pyFind cache cache_key with
  | some cached_data => (cached_data, cache, false)
  | none =>
    let run_full : DebateResult × List (String × DebateResult) × Bool :=
      let evidence_a :=
        RetrievalEngine.search env.embedder env.ann retrieval
          claim_a.text 3 (7 / 10)
      let evidence_b :=
        RetrievalEngine.search env.embedder env.ann retrieval
          claim_b.text 3 (7 / 10)
      let evidence_pool := evidence_a ++ evidence_b
      let raw_debate_result := env.run_debate claim_a.text claim_b.text
      let debate_log := raw_debate_result.log.getD []
      let citations := extract_citations debate_log evidence_pool
      let raw_confidence := raw_debate_result.confidence.getD (1 / 2)
      let cc := env.calibrator.calibrate raw_confidence
      let requires_human :=
        should_flag_for_review cc.1 citations.length evidence_pool
      let result : DebateResult :=
        { verdict := raw_debate_result.verdict.getD "uncertain"
          confidence := raw_confidence
          calibrated_confidence := cc.1
          confidence_desc := cc.2
          citations := citations
          requires_human := requires_human
          debate_log := debate_log
          agent_confidences :=
            [("skeptic", raw_confidence * (9 / 10)),
             ("connector", raw_confidence * 1),
             ("synthesizer", raw_confidence * (11 / 10))] }
      (result, pyInsert cache cache_key result, true)
    match claim_a.specter2_embedding, claim_b.specter2_embedding with
    | some emb_a, some emb_b =>
      let sim := npDot emb_a emb_b
      if sim < 3 / 10 then
        (lowSimilarityResult,
         pyInsert cache cache_key lowSimilarityResult, false)
      else if sim > 95 / 100 then
        (highSimilarityResult,
         pyInsert cache cache_key highSimilarityResult, false)
      else run_full
    | _, _ => run_full

/-- `EvidenceBasedDebate.should_debate_claims` (evidence_debate.py lines
229-250): look up `claim_b` among the top-10 neighbours of `claim_a`'s
embedding; debate if its similarity exceeds 0.6, and conservatively
debate whenever the check cannot be made. -/
def should_debate_claims (ann : AnnOracle)
    (e : RetrievalEngine ClaimDict) (claim_a claim_b : ClaimDict) : Bool :=
  match claim_a.specter2_embedding with
  | some emb =>
    let results := RetrievalEngine.search_by_embedding ann e emb 10 0
    match results.find? (fun r => r.claim_id = claim_b.claim_id) with
    | some m => m.similarity_score > 6 / 10
    | none => true
  | none => true

/-! ## DeduplicationEngine (src/research_os/ingestion/deduplication.py) -/

/-- Status of a duplicate check (deduplication.py lines 54-60). -/
inductive DuplicateStatus where
  | NEW
  | EXACT_DUPLICATE
  | SEMANTIC_DUPLICATE
  | DOI_DUPLICATE
  | VERSION_UPDATE
deriving DecidableEq, Repr

/-- The `version_info` dict attached to a `VERSION_UPDATE` result
(deduplication.py lines 278-283); `none` models the empty default dict. -/
structure VersionInfo where
  arxiv_id : String
  old_version : Nat
  new_version : Nat
  old_paper_id : String
deriving DecidableEq, Repr

/-- `DuplicateResult` (deduplication.py lines 63-71).  The free-text
`message` field is diagnostic only (it interpolates float formatting) and
no claim mentions it, so it is not modelled. -/
structure DuplicateResult where
  status : DuplicateStatus
  existing_id : Option String
  similarity_score : Option ℚ
  should_replace : Bool
  version_info : Option VersionInfo
deriving DecidableEq, Repr

/-- A row of `arxiv_mapping` (deduplication.py lines 358-362).  The
`registered_at` wall-clock timestamp is not modelled. -/
structure ArxivRecord where
  paper_id : String
  version : Nat
deriving DecidableEq, Repr

/-- The metadata dict given to the dedup engine; a missing key is `none`. -/
structure PaperMetadata where
  doi : Option String
  arxiv_id : Option String
  url : Option String
  pdf_url : Option String
  source_url : Option String
  title : Option String
deriving DecidableEq, Repr

/-- A metadata dict with every key absent. -/
def PaperMetadata.emptyDict : PaperMetadata :=
  { doi := none, arxiv_id := none, url := none, pdf_url := none,
    source_url := none, title := none }

/-- The engine's registry state (deduplication.py lines 96-117).  The
on-disk JSON/npz files mirror these tables; persistence is a snapshot of
them and is not modelled separately. -/
structure DeduplicationEngine where
  validation_mode : Bool
  file_hashes : List (String × String)
  doi_mapping : List (String × String)
  arxiv_mapping : List (String × ArxivRecord)
  embedding_ids : List String
  embedding_vectors : List (List ℚ)
deriving Repr

/-- A fresh engine with empty registries. -/
def DeduplicationEngine.initial (validation_mode : Bool) :
    DeduplicationEngine :=
  { validation_mode := validation_mode, file_hashes := [], doi_mapping := [],
    arxiv_mapping := [], embedding_ids := [], embedding_vectors := [] }

/-- Take exactly `n` decimal digits from the front of `s`. -/
def takeExactDigits : Nat → List Char → Option (List Char × List Char)
  | 0, s => some ([], s)
  | _ + 1, [] => none
  | n + 1, c :: cs =>
    if c.isDigit then
      (takeExactDigits n cs).map (fun r => (c :: r.1, r.2))
    else none

/-- Match `(\d{4}\.\d{4,5})(v\d+)?` anchored at the head of `s`,
returning the concatenated groups (the quantifiers are greedy; no
backtracking into `\d{4,5}` can ever succeed because the following
optional group and end of pattern impose no constraint). -/
def matchArxivAt (s : List Char) : Option (List Char) :=
  match takeExactDigits 4 s with
  | none => none
  | some (d4, rest1) =>
    match rest1 with
    | '.' :: rest2 =>
      let tail5 := takeExactDigits 5 rest2
      match (match tail5 with
             | some r => some r
             | none => takeExactDigits 4 rest2) with
      | none => none
      | some (dd, rest3) =>
        let g1 := d4 ++ '.' :: dd
        match rest3 with
        | 'v' :: vs =>
          let digits := vs.takeWhile Char.isDigit
          if digits.isEmpty then some g1 else some (g1 ++ 'v' :: digits)
        | _ => some g1
    | _ => none

/-- `re.search` of the arXiv-id pattern: leftmost match wins. -/
def searchArxivId : List Char → Option String
  | [] => none
  | c :: cs =>
    match matchArxivAt (c :: cs) with
    | some g => some (String.mk g)
    | none => searchArxivId cs

/-- Characters matched by the regex class `\s`. -/
def isSpaceChar (c : Char) : Bool :=
  c = ' ' || c = '\t' || c = '\n' || c = '\x0d' || c = '\x0c' || c = '\x0b'

/-- Case-insensitive match of the literal word `arXiv`. -/
def matchesArxivWord : List Char → Option (List Char)
  | a :: r :: x :: i :: v :: rest =>
    if a.toLower = 'a' && r.toLower = 'r' && x.toLower = 'x' &&
       i.toLower = 'i' && v.toLower = 'v'
    then some rest else none
  | _ => none

/-- Match `\[arXiv[:\s]*(\d{4}\.\d{4,5})(v\d+)?\]` (IGNORECASE) anchored
at the head of `s`, returning the two captured groups concatenated.  The
greedy `[:\s]*` cannot overlap a digit and the optional version group
cannot consume the closing bracket, so again no backtracking changes the
outcome. -/
def matchTitleArxivAt (s : List Char) : Option (List Char) :=
  match s with
  | '[' :: rest0 =>
    match matchesArxivWord rest0 with
    | none => none
    | some rest1 =>
      let rest2 := rest1.dropWhile (fun c => c = ':' || isSpaceChar c)
      match matchArxivAt rest2 with
      | none => none
      | some g =>
        match rest2.drop g.length with
        | ']' :: _ => some g
        | _ => none
  | _ => none

/-- `re.search` of the bracketed title pattern: leftmost match wins. -/
def searchTitleArxivId : List Char → Option String
  | [] => none
  | c :: cs =>
    match matchTitleArxivAt (c :: cs) with
    | some g => some (String.mk g)
    | none => searchTitleArxivId cs

/-- Python's `str.strip()`: drop leading and trailing whitespace. -/
def pyStrip (s : String) : String :=
  String.mk
    (((s.data.dropWhile isSpaceChar).reverse.dropWhile isSpaceChar).reverse)

/-- The url-field loop of `_extract_arxiv_id` (deduplication.py lines
138-146): a field is consulted only when it contains `arxiv.org`. -/
def urlArxivId (url : String) : Option String :=
  if strOccursIn "arxiv.org" url then searchArxivId url.data else none

/-- `DeduplicationEngine._extract_arxiv_id` (deduplication.py lines
121-154): the direct `arxiv_id` field (stripped) wins when truthy, then
the three url fields in order, then the bracketed title pattern. -/
def extract_arxiv_id (metadata : PaperMetadata) : Option String :=
  let direct := metadata.arxiv_id.getD ""
  if direct ≠ "" then some (pyStrip direct)
  else
    match urlArxivId (metadata.url.getD "") with
    | some r => some r
    | none =>
      match urlArxivId (metadata.pdf_url.getD "") with
      | some r => some r
      | none =>
        match urlArxivId (metadata.source_url.getD "") with
        | some r => some r
        | none =>
          let title := metadata.title.getD ""
          if title ≠ "" then searchTitleArxivId title.data else none

/-- Decimal value of a digit string. -/
def natOfDigits (ds : List Char) : Nat :=
  ds.foldl (fun n c => n * 10 + (c.toNat - '0'.toNat)) 0

/-- `re.match(r'(.+)v(\d+)$', s)` with both quantifiers greedy: the
matched `v` is the one immediately before the maximal all-digit suffix,
which must be nonempty, and at least one character must precede the `v`. -/
def matchTrailingVersion (s : List Char) : Option (List Char × Nat) :=
  let rev := s.reverse
  let ds := rev.takeWhile Char.isDigit
  if ds.isEmpty then none
  else
    match rev.drop ds.length with
    | 'v' :: pre =>
      if pre.isEmpty then none
      else some (pre.reverse, natOfDigits ds.reverse)
    | _ => none

/-- `DeduplicationEngine._parse_arxiv_version` (deduplication.py lines
156-170): split a trailing `v<digits>` off when the id contains a `v`
and the regex matches; default version is 1. -/
def parse_arxiv_version (arxiv_id : String) : String × Nat :=
  if strOccursIn "v" arxiv_id then
    match matchTrailingVersion arxiv_id.data with
    | some r => (String.mk r.1, r.2)
    | none => (arxiv_id, 1)
  else (arxiv_id, 1)

/-- sklearn's `cosine_similarity` of two vectors involves real square
roots, so it is modelled as an oracle (the decision logic under
verification is independent of the numeric formula). -/
def CosineOracle : Type :=
  List ℚ → List ℚ → ℚ

/-- Largest element of a list (`0` for the empty list, which the call
sites never pass). -/
def npMax : List ℚ → ℚ
  | [] => 0
  | x :: xs => xs.foldl (fun a b => max a b) x

/-- `np.argmax`: index of the first occurrence of the maximum. -/
def npArgmax (l : List ℚ) : Nat :=
  l.indexOf (npMax l)

/-- The local `_apply_validation_mode` helper (deduplication.py lines
226-235): in validation mode a non-NEW result is replaced by a fresh
`NEW` result that keeps only `version_info` (and the log message). -/
def apply_validation_mode (e : DeduplicationEngine)
    (result : DuplicateResult) : DuplicateResult :=
  if e.validation_mode ∧ result.status ≠ DuplicateStatus.NEW then
    { status := DuplicateStatus.NEW, existing_id := none,
      similarity_score := none, should_replace := false,
      version_info := result.version_info }
  else result

/-- `DeduplicationEngine.check_duplicate` (deduplication.py lines
205-323).  The file enters only through its SHA-256 (`compute_file_hash`),
so the model takes the hash itself; `SKLEARN_AVAILABLE` is taken as true.
Note that the source wraps the hash, DOI and arXiv branches in
`_apply_validation_mode` but returns the semantic-duplicate branch
directly.  The check reads the registries and writes nothing.

`semantic_check` is the semantic-similarity fall-through section
(deduplication.py lines 294-323), which also builds the final NEW
result. -/
def semantic_check (cosine : CosineOracle) (e : DeduplicationEngine)
    (embedding : Option (List ℚ)) (similarity_threshold : ℚ) :
    DuplicateResult :=
  let newResult : DuplicateResult :=
    { status := DuplicateStatus.NEW, existing_id := none,
      similarity_score := none, should_replace := false, version_info := none }
  match embedding with
  | some emb =>
    if emb ≠ [] ∧ 0 < e.embedding_vectors.length then
      let similarities := e.embedding_vectors.map (fun v => cosine emb v)
      let max_sim_idx := npArgmax similarities
      let max_similarity := similarities.getD max_sim_idx 0
      if max_similarity ≥ similarity_threshold then
        { status := DuplicateStatus.SEMANTIC_DUPLICATE,
          existing_id := e.embedding_ids.get? max_sim_idx,
          similarity_score := some max_similarity,
          should_replace := false, version_info := none }
      else newResult
    else newResult
  | none => newResult

def check_duplicate (cosine : CosineOracle) (e : DeduplicationEngine)
    (file_hash : String) (metadata : PaperMetadata)
    (embedding : Option (List ℚ)) (similarity_threshold : ℚ) :
    DuplicateResult :=
  let semantic : DuplicateResult :=
    semantic_check cosine e embedding similarity_threshold
  match pyFind e.file_hashes file_hash with
  | some existing_id =>
    apply_validation_mode e
      { status := DuplicateStatus.EXACT_DUPLICATE,
        existing_id := some existing_id, similarity_score := none,
        should_replace := false, version_info := none }
  | none =>
    let doi := metadata.doi.getD ""
    match (if doi ≠ "" then pyFind e.doi_mapping doi else none) with
    | some existing_id =>
      apply_validation_mode e
        { status := DuplicateStatus.DOI_DUPLICATE,
          existing_id := some existing_id, similarity_score := none,
          should_replace := false, version_info := none }
    | none =>
      match extract_arxiv_id metadata with
      | some arxiv_id =>
        let bv := parse_arxiv_version arxiv_id
        match pyFind e.arxiv_mapping bv.1 with
        | some existing_data =>
          if bv.2 > existing_data.version then
            apply_validation_mode e
              { status := DuplicateStatus.VERSION_UPDATE,
                existing_id := some existing_data.paper_id,
                similarity_score := none, should_replace := true,
                version_info := some
                  { arxiv_id := bv.1, old_version := existing_data.version,
                    new_version := bv.2,
                    old_paper_id := existing_data.paper_id } }
          else
            apply_validation_mode e
              { status := DuplicateStatus.EXACT_DUPLICATE,
                existing_id := some existing_data.paper_id,
                similarity_score := none, should_replace := false,
                version_info := none }
        | none => semantic
      | none => semantic

/-- `DeduplicationEngine.register_paper` (deduplication.py lines
325-387): write the file-hash row, the DOI row when a truthy DOI exists,
the arXiv row (overwriting any existing record for the base id with the
newly parsed version), and append the embedding to the parallel arrays
when a truthy embedding is given. -/
def register_paper (e : DeduplicationEngine) (paper_id : String)
    (file_hash : String) (metadata : PaperMetadata)
    (embedding : Option (List ℚ)) : DeduplicationEngine :=
  let e1 := { e with file_hashes := pyInsert e.file_hashes file_hash paper_id }
  let doi := metadata.doi.getD ""
  let e2 :=
    if doi ≠ "" then
      { e1 with doi_mapping := pyInsert e1.doi_mapping doi paper_id }
    else e1
  let e3 :=
    match extract_arxiv_id metadata with
    | some arxiv_id =>
      let bv := parse_arxiv_version arxiv_id
      let row : ArxivRecord := { paper_id := paper_id, version := bv.2 }
      { e2 with arxiv_mapping := pyInsert e2.arxiv_mapping bv.1 row }
    | none => e2
  match embedding with
  | some emb =>
    if emb ≠ [] then
      { e3 with embedding_ids := e3.embedding_ids ++ [paper_id],
                embedding_vectors := e3.embedding_vectors ++ [emb] }
    else e3
  | none => e3

/-! ## Graph backend (src/jarvis_m4/services/graph_backend.py)

The in-memory backend, which is what the pipeline's tests and the causal
graph use (`KuzuBackend` wraps an external database engine).  Edge
properties are serialised with `json.dumps` / parsed back with
`json.loads`; that round trip is the identity on the values involved, so
the model stores the values directly. -/

/-- Edge properties as written by `CausalGraphV2.add_relationship`
(causal_graph.py lines 59-64). -/
structure EdgeProps where
  relation_type : String
  confidence : ℚ
  citations : List String
  debate_log : List String
deriving DecidableEq, Repr

/-- One entry of `InMemoryBackend.edges` (graph_backend.py lines
196-202); `src`/`dst` model the `"from"`/`"to"` keys. -/
structure BackendEdge where
  edge_id : String
  src : String
  dst : String
  rel_type : String
  properties : EdgeProps
deriving DecidableEq, Repr

/-- `InMemoryBackend` (graph_backend.py lines 173-221): a node dict and
an edge list.  The pipeline only ever stores `Claim` nodes, whose
properties are claim dicts. -/
structure InMemoryBackend where
  nodes : List (String × ClaimDict)
  edges : List BackendEdge
deriving DecidableEq, Repr

/-- The empty backend. -/
def InMemoryBackend.initial : InMemoryBackend :=
  { nodes := [], edges := [] }

/-- `InMemoryBackend.add_node` (graph_backend.py lines 184-191): read the
primary key `{label.lower()}_id` from the properties (for the `Claim`
label this is `claim_id`) and fail with `ValueError` when it is missing
or falsy; otherwise store the properties under the id. -/
def InMemoryBackend.add_node (b : InMemoryBackend)
    (properties : ClaimDict) : Except String (String × InMemoryBackend) :=
  let node_id := properties.claim_id
  if node_id = "" then Except.error "Missing claim_id"
  else Except.ok (node_id,
    { b with nodes := pyInsert b.nodes node_id properties })

/-- `InMemoryBackend.add_edge` (graph_backend.py lines 194-203): build
the edge id `from-rel-to` and append the edge.  The source consults
neither `self.nodes` nor anything else: there is no failure path and no
endpoint check. -/
def InMemoryBackend.add_edge (b : InMemoryBackend)
    (from_id to_id rel_type : String) (properties : EdgeProps) :
    String × InMemoryBackend :=
  let edge_id := from_id ++ "-" ++ rel_type ++ "-" ++ to_id
  (edge_id,
   { b with edges := b.edges ++
      [{ edge_id := edge_id, src := from_id, dst := to_id,
         rel_type := rel_type, properties := properties }] })

/-! ## CausalGraphV2 (src/jarvis_m4/services/causal_graph.py) -/

/-- The argument dict of `add_relationship`, read with `.get` and per-key
defaults; a missing key is `none`.  (`result.dict()` of a `DebateResult`
populates every key.) -/
structure DebateDict where
  verdict : Option String
  confidence : Option ℚ
  calibrated_confidence : Option ℚ
  citations : Option (List String)
  debate_log : Option (List String)
deriving DecidableEq, Repr

/-- `result.dict()` on a pydantic `DebateResult`, restricted to the keys
`add_relationship` reads. -/
def DebateResult.toDict (r : DebateResult) : DebateDict :=
  { verdict := some r.verdict, confidence := some r.confidence,
    calibrated_confidence := some r.calibrated_confidence,
    citations := some r.citations, debate_log := some r.debate_log }

/-- `CausalGraphV2` state (causal_graph.py lines 24-32): the persistent
backend plus the in-memory NetworkX `DiGraph` mirror.  A `DiGraph` keeps
at most one edge per ordered pair — re-adding updates the stored
attributes in place — and inserts missing endpoint nodes.  The
`_contradiction_cache` field is assigned `None` and never read, so it is
not modelled. -/
structure CausalGraphV2 where
  backend : InMemoryBackend
  nx_nodes : List String
  nx_edges : List ((String × String) × EdgeProps)
deriving DecidableEq, Repr

/-- The empty causal graph over the empty in-memory backend. -/
def CausalGraphV2.initial : CausalGraphV2 :=
  { backend := InMemoryBackend.initial, nx_nodes := [], nx_edges := [] }

/-- NetworkX node insertion: append if absent. -/
def nxAddNode (ns : List String) (n : String) : List String :=
  if ns.contains n then ns else ns ++ [n]

/-- `CausalGraphV2.add_relationship` (causal_graph.py lines 45-72): read
the verdict (default `uncertain`) and the raw `confidence` key (default
0.5) from the debate-result dict, write a `RELATES` edge with these
properties to the backend, and mirror it in the NetworkX view. -/
def CausalGraphV2.add_relationship (g : CausalGraphV2)
    (from_id to_id : String) (debate_result : DebateDict) : CausalGraphV2 :=
  let rel_type := debate_result.verdict.getD "uncertain"
  let confidence := debate_result.confidence.getD (1 / 2)
  let edge_props : EdgeProps :=
    { relation_type := rel_type, confidence := confidence,
      citations := debate_result.citations.getD [],
      debate_log := debate_result.debate_log.getD [] }
  let bres := g.backend.add_edge from_id to_id "RELATES" edge_props
  { backend := bres.2,
    nx_nodes := nxAddNode (nxAddNode g.nx_nodes from_id) to_id,
    nx_edges := pyInsert g.nx_edges (from_id, to_id) edge_props }

/-- `CausalGraphV2.find_contradictions` (causal_graph.py lines 74-91):
every mirrored edge with `relation_type = refutes` and
`confidence ≥ min_confidence`, as `(from, to, citations)` triples in
edge-iteration order. -/
def CausalGraphV2.find_contradictions (g : CausalGraphV2)
    (min_confidence : ℚ) : List (String × String × List String) :=
  g.nx_edges.filterMap (fun ed =>
    if ed.2.relation_type = "refutes" ∧ min_confidence ≤ ed.2.confidence
    then some (ed.1.1, ed.1.2, ed.2.citations) else none)

/-- NetworkX `DiGraph.degree`: in-degree plus out-degree. -/
def CausalGraphV2.degree (g : CausalGraphV2) (n : String) : Nat :=
  (g.nx_edges.filter (fun ed => ed.1.1 = n)).length +
    (g.nx_edges.filter (fun ed => ed.1.2 = n)).length

/-- `CausalGraphV2._classify_gap_type` (causal_graph.py lines 142-153). -/
def classify_gap_type (edge_data : EdgeProps) : String :=
  if edge_data.relation_type = "refutes" ∧ edge_data.confidence < 7 / 10
  then "methodological_gap"
  else if edge_data.relation_type = "uncertain" then "validation_needed"
  else "frontier_synthesis"

/-- One entry of the `find_frontier_edges` result (causal_graph.py lines
132-138). -/
structure FrontierEdge where
  claim_a_id : String
  claim_b_id : String
  confidence : ℚ
  relation_type : String
  gap_type : String
deriving DecidableEq, Repr

/-- `CausalGraphV2.find_frontier_edges` (causal_graph.py lines 116-140):
mirrored edges with `confidence < max_confidence` between nodes of
degree at least `min_degree`. -/
def CausalGraphV2.find_frontier_edges (g : CausalGraphV2)
    (max_confidence : ℚ) (min_degree : Nat) : List FrontierEdge :=
  g.nx_edges.filterMap (fun ed =>
    if ed.2.confidence < max_confidence ∧ min_degree ≤ g.degree ed.1.1 ∧
        min_degree ≤ g.degree ed.1.2
    then some { claim_a_id := ed.1.1, claim_b_id := ed.1.2,
                confidence := ed.2.confidence,
                relation_type := ed.2.relation_type,
                gap_type := classify_gap_type ed.2 }
    else none)

/-! ## Stream orchestrator (src/jarvis_m4/main 2.py)

`process_paper_stream` is an async generator; the model is its sequential
elaboration (the yield order is the extraction order, and every spawned
`_async_debate_claim` task is awaited before the stream completes, so the
final state below is the state after one complete run with the tasks
executed in spawn order). -/

/-- The mutable state the stream touches. -/
structure PipelineState where
  retrieval : RetrievalEngine ClaimDict
  cache : List (String × DebateResult)
  graph : CausalGraphV2

/-- One claim as returned by the external `ClaimExtractorV2`
(`extract_from_paper` populates the text and its embedding). -/
structure ExtractedClaim where
  text : String
  embedding : List ℚ
deriving DecidableEq, Repr

/-- The oracles of a pipeline run.  `pyHash` models Python's builtin
`hash` on strings, which is salted per process but fixed within one
process (both runs of an idempotence experiment see the same function). -/
structure PipelineEnv where
  debate : DebateEnv
  extractor : String → String → List ExtractedClaim
  pyHash : String → Int

/-- `UnifiedPipelineV2._async_debate_claim` (main 2.py lines 155-184):
take the top-5 neighbours with similarity ≥ 0.6, consider the first two,
skip self, and for each surviving neighbour whose `should_debate_claims`
check passes, debate the pair and add the resulting relationship to the
graph — unconditionally, cache hit or not. -/
def async_debate_claim (env : PipelineEnv) (s : PipelineState)
    (c_dict : ClaimDict) : PipelineState :=
  let similar_claims :=
    RetrievalEngine.search_by_embedding env.debate.ann s.retrieval
      (c_dict.specter2_embedding.getD []) 5 (6 / 10)
  (similar_claims.take 2).foldl (fun st similar =>
    if similar.claim_id = c_dict.claim_id then st
    else if should_debate_claims env.debate.ann st.retrieval c_dict
            similar.metadata then
      let dres :=
        debate_claim_pair env.debate st.retrieval st.cache c_dict
          similar.metadata
      { st with cache := dres.2.1,
                graph := st.graph.add_relationship c_dict.claim_id
                  similar.claim_id dres.1.toDict }
    else st) s

/-- `UnifiedPipelineV2.process_paper_stream` (main 2.py lines 78-153),
starting from the already-read paper text (reading the file is external
I/O): extract claims, derive `claim_id = "{paper_id}_{hash(text) % 100000}"`,
bulk-index every claim (no duplicate check — `index_claim` cannot fail),
then run the debate task of each claim in order. -/
def process_paper_stream (env : PipelineEnv) (s : PipelineState)
    (text : String) (paper_id : String) : PipelineState :=
  let extracted_claims := env.extractor text paper_id
  if extracted_claims.isEmpty then s
  else
    let claim_dicts : List ClaimDict := extracted_claims.map (fun c =>
      { claim_id := paper_id ++ "_" ++ toString (env.pyHash c.text % 100000),
        paper_id := paper_id, text := c.text,
        specter2_embedding := some c.embedding })
    let indexed := claim_dicts.foldl (fun e cd =>
        e.index_claim cd.claim_id (cd.specter2_embedding.getD []) cd)
      s.retrieval
    let s1 := { s with retrieval := indexed }
    claim_dicts.foldl (fun st cd => async_debate_claim env st cd) s1

/-! ## Spec-side definitions and concrete instances

`dedupSpecStatus` is written from the words of the spec's decision order
(spec section 4.E) so that the code's `check_duplicate` can be proved to
refine it.  The remaining definitions are concrete oracles and states
used to instantiate the theorems below. -/

/-- The spec's dedup decision order, first match wins: file hash, DOI,
arXiv (higher version → update, else exact), embedding similarity at
least the threshold against some stored embedding, otherwise NEW.
(A present embedding is a truthy — nonempty — vector.)
`specSemanticStatus` is its final rule: similarity at least the
threshold against some stored embedding, else NEW. -/
def specSemanticStatus (cosine : CosineOracle) (e : DeduplicationEngine)
    (embedding : Option (List ℚ)) (similarity_threshold : ℚ) :
    DuplicateStatus :=
  match embedding with
  | some emb =>
    if emb ≠ [] ∧
        e.embedding_vectors.any
          (fun v => decide (similarity_threshold ≤ cosine emb v))
    then DuplicateStatus.SEMANTIC_DUPLICATE
    else DuplicateStatus.NEW
  | none => DuplicateStatus.NEW

def dedupSpecStatus (cosine : CosineOracle) (e : DeduplicationEngine)
    (file_hash : String) (metadata : PaperMetadata)
    (embedding : Option (List ℚ)) (similarity_threshold : ℚ) :
    DuplicateStatus :=
  let semanticSpec : DuplicateStatus :=
    specSemanticStatus cosine e embedding similarity_threshold
  if (pyFind e.file_hashes file_hash).isSome then
    DuplicateStatus.EXACT_DUPLICATE
  else if metadata.doi.getD "" ≠ "" ∧
      (pyFind e.doi_mapping (metadata.doi.getD "")).isSome then
    DuplicateStatus.DOI_DUPLICATE
  else
    match extract_arxiv_id metadata with
    | some arxiv_id =>
      match pyFind e.arxiv_mapping (parse_arxiv_version arxiv_id).1 with
      | some existing_data =>
        if existing_data.version < (parse_arxiv_version arxiv_id).2
        then DuplicateStatus.VERSION_UPDATE
        else DuplicateStatus.EXACT_DUPLICATE
      | none => semanticSpec
    | none => semanticSpec

/-- An ANN oracle returning no neighbours. -/
def trivialAnn : AnnOracle := fun _ _ _ => []

/-- An ANN oracle returning every stored row at distance 0, up to `k`
(deterministic stand-in for an exact search over identical vectors). -/
def allHitsAnn : AnnOracle := fun vecs _ k =>
  ((List.range vecs.length).take k).map (fun i => ((0 : ℚ), (i : Int)))

/-- An adjudicator oracle whose reply carries no keys. -/
def trivialRunDebate : String → String → RawDebate :=
  fun _ _ => { verdict := none, confidence := none, log := none }

/-- A debate environment with trivial collaborators and an untrained
calibrator. -/
def trivialDebateEnv : DebateEnv :=
  { embedder := fun _ => [], ann := trivialAnn,
    run_debate := trivialRunDebate, calibrator := { fitted := none } }

/-- A claim whose embedding is `[1, 0]`. -/
def claimA : ClaimDict :=
  { claim_id := "a", paper_id := "p", text := "ta",
    specter2_embedding := some [1, 0] }

/-- A claim whose embedding is `[0, 1]` (orthogonal to `claimA`). -/
def claimB : ClaimDict :=
  { claim_id := "b", paper_id := "p", text := "tb",
    specter2_embedding := some [0, 1] }

/-- A claim whose embedding equals `claimA`'s. -/
def claimC : ClaimDict :=
  { claim_id := "c", paper_id := "p", text := "tc",
    specter2_embedding := some [1, 0] }

/-- An engine in which `"c1"` was indexed twice. -/
def engC1 : RetrievalEngine Nat :=
  ((RetrievalEngine.initial Nat).index_claim "c1" [1] 0).index_claim
    "c1" [1] 0

/-- An engine in which `"c1"` was indexed once. -/
def engC1a : RetrievalEngine Nat :=
  (RetrievalEngine.initial Nat).index_claim "c1" [1] 0

/-- Metadata carrying only a direct arXiv id. -/
def mdArxiv (aid : String) : PaperMetadata :=
  { PaperMetadata.emptyDict with arxiv_id := some aid }

/-- Register arXiv `2103.12345` at version 2, then again at version 1. -/
def dedupC5 : DeduplicationEngine :=
  register_paper
    (register_paper (DeduplicationEngine.initial false) "P1" "h1"
      (mdArxiv "2103.12345v2") none)
    "P2" "h2" (mdArxiv "2103.12345v1") none

/-- A cosine oracle given by the dot product (exact for unit vectors). -/
def dotOracle : CosineOracle := fun a b => npDot a b

/-- A validation-mode engine holding one registered hash and one stored
embedding. -/
def dedupC6 : DeduplicationEngine :=
  { validation_mode := true, file_hashes := [("h1", "P1")],
    doi_mapping := [], arxiv_mapping := [], embedding_ids := ["P1"],
    embedding_vectors := [[1]] }

/-- A non-validation engine holding one registered hash and one stored
embedding. -/
def dedupC4 : DeduplicationEngine :=
  { validation_mode := false, file_hashes := [("h1", "P1")],
    doi_mapping := [], arxiv_mapping := [], embedding_ids := ["P1"],
    embedding_vectors := [[1]] }

/-- A pipeline whose extractor yields two identical-embedding claims for
paper `P` and whose ANN search returns every stored row. -/
def c7Env : PipelineEnv :=
  { debate := { embedder := fun _ => [], ann := allHitsAnn,
                run_debate := trivialRunDebate,
                calibrator := { fitted := none } },
    extractor := fun _ pid =>
      if pid = "P" then
        [{ text := "t1", embedding := [1, 0] },
         { text := "t2", embedding := [1, 0] }]
      else [],
    pyHash := fun t => if t = "t1" then 1 else 2 }

/-- The empty pipeline state. -/
def c7Init : PipelineState :=
  { retrieval := RetrievalEngine.initial ClaimDict, cache := [],
    graph := CausalGraphV2.initial }

/-- State after the first run of paper `P`. -/
def c7Run1 : PipelineState := process_paper_stream c7Env c7Init "text" "P"

/-- State after re-running the same paper. -/
def c7Run2 : PipelineState := process_paper_stream c7Env c7Run1 "text" "P"

/-- Sample edge properties. -/
def sampleProps : EdgeProps :=
  { relation_type := "supports", confidence := 1, citations := [],
    debate_log := [] }

/-! ## Helper lemmas -/

theorem pyFind_pyInsert_self {κ α : Type} [DecidableEq κ]
    (m : List (κ × α)) (k : κ) (v : α) :
    pyFind (pyInsert m k v) k = some v := by
  induction m with
  | nil => simp [pyInsert, pyFind]
  | cons hd tl ih =>
    obtain ⟨k1, v1⟩ := hd
    by_cases h : k1 = k <;> simp [pyInsert, pyFind, h, ih]

theorem pyFind_pyInsert_ne {κ α : Type} [DecidableEq κ]
    (m : List (κ × α)) (k k1 : κ) (v : α) (h : k ≠ k1) :
    pyFind (pyInsert m k v) k1 = pyFind m k1 := by
  induction m with
  | nil => simp [pyInsert, pyFind, h]
  | cons hd tl ih =>
    obtain ⟨k2, v2⟩ := hd
    by_cases h2 : k2 = k
    · subst h2
      simp [pyInsert, pyFind, h]
    · simp only [pyInsert, if_neg h2, pyFind]
      by_cases h3 : k2 = k1 <;> simp [pyFind, h3, ih]

theorem pyInsert_length_of_isSome {κ α : Type} [DecidableEq κ]
    (m : List (κ × α)) (k : κ) (v : α) (h : (pyFind m k).isSome) :
    (pyInsert m k v).length = m.length := by
  induction m with
  | nil => simp [pyFind] at h
  | cons hd tl ih =>
    obtain ⟨k1, v1⟩ := hd
    by_cases h1 : k1 = k
    · simp [pyInsert, h1]
    · simp only [pyFind, if_neg h1] at h
      simp [pyInsert, if_neg h1, ih h]

theorem pyFind_pyInsert_isSome {κ α : Type} [DecidableEq κ]
    (m : List (κ × α)) (k k1 : κ) (v : α) (h : (pyFind m k1).isSome) :
    (pyFind (pyInsert m k v) k1).isSome := by
  by_cases hk : k = k1
  · subst hk
    simp [pyFind_pyInsert_self]
  · rw [pyFind_pyInsert_ne m k k1 v hk]
    exact h

/-! ## First claim: duplicate indexing -/

/-- C1, as stated, is false on the code: indexing an already present
`claim_id` does not fail with `DuplicateId` — `index_claim` has no
failure path at all — and afterwards the duplicate claim has two vector
rows while ANN positions 0 and 1 both map to it, so positions do not map
bijectively to claim ids, and the metadata table holds a single
(overwritten) row. -/
theorem index_claim_duplicate_counterexample :
    engC1.ntotal = 2 ∧
    engC1.vectors.length = 2 ∧
    pyFind engC1.index_to_id 0 = some "c1" ∧
    pyFind engC1.index_to_id 1 = some "c1" ∧
    engC1.id_to_metadata.length = 1 := by decide

/-- C1 (amended): a further call `index_claim(claim_id, vector, metadata)`
for a `claim_id` that is already present succeeds (the source has no
duplicate check): it appends a second vector row, repoints
`id_to_index[claim_id]` at the new ANN position, leaves both the old and
the new ANN position mapping to `claim_id` (so positions no longer map
bijectively to claim ids), and overwrites the single metadata row instead
of adding one. -/
theorem index_claim_duplicate_overwrites {μ : Type} (e : RetrievalEngine μ)
    (cid : String) (i : Nat) (v : List ℚ) (m : μ)
    (_hidx : pyFind e.id_to_index cid = some i)
    (hrev : pyFind e.index_to_id i = some cid)
    (hlt : i < e.ntotal)
    (hmeta : (pyFind e.id_to_metadata cid).isSome) :
    (e.index_claim cid v m).ntotal = e.ntotal + 1 ∧
    (e.index_claim cid v m).vectors = e.vectors ++ [v] ∧
    pyFind (e.index_claim cid v m).id_to_index cid = some e.ntotal ∧
    pyFind (e.index_claim cid v m).index_to_id i = some cid ∧
    pyFind (e.index_claim cid v m).index_to_id e.ntotal = some cid ∧
    (e.index_claim cid v m).id_to_metadata.length =
      e.id_to_metadata.length ∧
    pyFind (e.index_claim cid v m).id_to_metadata cid = some m := by
  refine ⟨?_, rfl, ?_, ?_, ?_, ?_, ?_⟩
  · simp [RetrievalEngine.index_claim, RetrievalEngine.ntotal]
  · simp [RetrievalEngine.index_claim, pyFind_pyInsert_self]
  · have hne : e.ntotal ≠ i := Nat.ne_of_gt hlt
    simp only [RetrievalEngine.index_claim]
    rw [pyFind_pyInsert_ne e.index_to_id e.ntotal i cid hne]
    exact hrev
  · simp [RetrievalEngine.index_claim, pyFind_pyInsert_self]
  · exact pyInsert_length_of_isSome e.id_to_metadata cid m hmeta
  · simp [RetrievalEngine.index_claim, pyFind_pyInsert_self]

/-- Witness for the amended C1 theorem at a concrete engine holding one
indexed claim. -/
theorem index_claim_duplicate_overwrites_witness :
    (engC1a.index_claim "c1" [2] 5).ntotal = engC1a.ntotal + 1 ∧
    (engC1a.index_claim "c1" [2] 5).vectors = engC1a.vectors ++ [[2]] ∧
    pyFind (engC1a.index_claim "c1" [2] 5).id_to_index "c1" =
      some engC1a.ntotal ∧
    pyFind (engC1a.index_claim "c1" [2] 5).index_to_id 0 = some "c1" ∧
    pyFind (engC1a.index_claim "c1" [2] 5).index_to_id engC1a.ntotal =
      some "c1" ∧
    (engC1a.index_claim "c1" [2] 5).id_to_metadata.length =
      engC1a.id_to_metadata.length ∧
    pyFind (engC1a.index_claim "c1" [2] 5).id_to_metadata "c1" = some 5 :=
  index_claim_duplicate_overwrites engC1a "c1" 0 [2] 5 (by decide)
    (by decide) (by decide) (by decide)

/-! ## Second claim: the similarity prefilter -/

/-- C2, as stated, is false on the code only in the transcript it
promises: on the `sim < 0.3` branch the stored transcript line is
`"Skipped due to low similarity (<0.3)"` (which the repository's own
cache test asserts for the high branch in the analogous form), not
`"skipped: low similarity"`.  Concretely, for orthogonal embeddings the
returned result carries the former line and not the latter. -/
theorem debate_pair_low_similarity_counterexample :
    (debate_claim_pair trivialDebateEnv (RetrievalEngine.initial ClaimDict)
        [] claimA claimB).1.debate_log =
      ["Skipped due to low similarity (<0.3)"] ∧
    (debate_claim_pair trivialDebateEnv (RetrievalEngine.initial ClaimDict)
        [] claimA claimB).1.debate_log ≠
      ["skipped: low similarity"] := by with_unfolding_all decide

/-- C2 (amended): for claims that both carry embeddings and have no
cached result, if the dot-product similarity is below 0.3 then
`debate_claim_pair` stores under the canonical key and returns exactly
`{verdict = uncertain, raw = 0, calibrated = 0, band = Unrelated,
citations = ∅, requires_human = false,
transcript = ["Skipped due to low similarity (<0.3)"],
agent_confidences = ∅}`, and the external adjudicator is not invoked;
likewise the adjudicator is not invoked when the similarity exceeds
0.95. -/
theorem debate_pair_low_similarity_skips (env : DebateEnv)
    (retrieval : RetrievalEngine ClaimDict)
    (cache : List (String × DebateResult)) (a b : ClaimDict)
    (ea eb : List ℚ)
    (hmiss : pyFind cache (cacheKey a.claim_id b.claim_id) = none)
    (ha : a.specter2_embedding = some ea)
    (hb : b.specter2_embedding = some eb) :
    (npDot ea eb < 3 / 10 →
      debate_claim_pair env retrieval cache a b =
        (lowSimilarityResult,
         pyInsert cache (cacheKey a.claim_id b.claim_id)
           lowSimilarityResult, false)) ∧
    (npDot ea eb > 95 / 100 →
      debate_claim_pair env retrieval cache a b =
        (highSimilarityResult,
         pyInsert cache (cacheKey a.claim_id b.claim_id)
           highSimilarityResult, false)) := by
  constructor
  · intro hsim
    simp [debate_claim_pair, hmiss, ha, hb, hsim]
  · intro hsim
    have hnotlow : ¬ npDot ea eb < 3 / 10 := by linarith
    simp [debate_claim_pair, hmiss, ha, hb, hnotlow, hsim]

/-- Witness for the amended C2 theorem: orthogonal embeddings `[1,0]`,
`[0,1]` have similarity `0 < 0.3`, and the call stores and returns the
fixed low-similarity result without touching the adjudicator. -/
theorem debate_pair_low_similarity_skips_witness :
    debate_claim_pair trivialDebateEnv (RetrievalEngine.initial ClaimDict)
        [] claimA claimB =
      (lowSimilarityResult,
       pyInsert [] (cacheKey claimA.claim_id claimB.claim_id)
         lowSimilarityResult, false) :=
  (debate_pair_low_similarity_skips trivialDebateEnv
    (RetrievalEngine.initial ClaimDict) [] claimA claimB [1, 0] [0, 1]
    (by with_unfolding_all decide) rfl rfl).1 (by with_unfolding_all decide)

/-! ## Third claim: canonical cache key and cache symmetry -/

theorem cacheKey_eq_if (x y : String) :
    cacheKey x y =
      (if x ≤ y then x ++ "_" ++ y else y ++ "_" ++ x) := by
  by_cases h : x ≤ y <;>
    simp [cacheKey, List.insertionSort, List.orderedInsert, h, joinUnderscore]

theorem cacheKey_comm (x y : String) : cacheKey x y = cacheKey y x := by
  rw [cacheKey_eq_if, cacheKey_eq_if]
  rcases le_total x y with h | h
  · by_cases h2 : y ≤ x
    · have hxy : x = y := le_antisymm h h2
      subst hxy
      simp
    · simp [h, h2]
  · by_cases h2 : x ≤ y
    · have hxy : x = y := le_antisymm h2 h
      subst hxy
      simp
    · simp [h, h2]

theorem debate_pair_stores_key (env : DebateEnv)
    (retrieval : RetrievalEngine ClaimDict)
    (cache : List (String × DebateResult)) (a b : ClaimDict) :
    pyFind (debate_claim_pair env retrieval cache a b).2.1
        (cacheKey a.claim_id b.claim_id) =
      some (debate_claim_pair env retrieval cache a b).1 := by
  unfold debate_claim_pair
  cases h : pyFind cache (cacheKey a.claim_id b.claim_id) with
  | some r => simp [h]
  | none =>
    cases ha : a.specter2_embedding with
    | none => simp [h, ha, pyFind_pyInsert_self]
    | some ea =>
      cases hb : b.specter2_embedding with
      | none => simp [h, ha, hb, pyFind_pyInsert_self]
      | some eb =>
        by_cases h1 : npDot ea eb < 3 / 10
        · simp [h, ha, hb, h1, pyFind_pyInsert_self]
        · by_cases h2 : npDot ea eb > 95 / 100 <;>
            simp [h, ha, hb, h1, h2, pyFind_pyInsert_self]

theorem debate_pair_hit (env : DebateEnv)
    (retrieval : RetrievalEngine ClaimDict)
    (cache : List (String × DebateResult)) (a b : ClaimDict)
    (r : DebateResult)
    (h : pyFind cache (cacheKey a.claim_id b.claim_id) = some r) :
    debate_claim_pair env retrieval cache a b = (r, cache, false) := by
  unfold debate_claim_pair
  simp [h]

/-- C3: the cache key is the lexicographically sorted join of the two
claim ids with `"_"`, and after any first call `debate_claim_pair(a, b)`,
both `debate_claim_pair(b, a)` and `debate_claim_pair(a, b)` on the
resulting cache return the identical stored result (and leave the cache
unchanged, without invoking the adjudicator). -/
theorem debate_pair_cache_symmetry (env : DebateEnv)
    (retrieval : RetrievalEngine ClaimDict)
    (cache : List (String × DebateResult)) (a b : ClaimDict) :
    cacheKey a.claim_id b.claim_id =
      (if a.claim_id ≤ b.claim_id then a.claim_id ++ "_" ++ b.claim_id
       else b.claim_id ++ "_" ++ a.claim_id) ∧
    debate_claim_pair env retrieval
        (debate_claim_pair env retrieval cache a b).2.1 b a =
      ((debate_claim_pair env retrieval cache a b).1,
       (debate_claim_pair env retrieval cache a b).2.1, false) ∧
    debate_claim_pair env retrieval
        (debate_claim_pair env retrieval cache a b).2.1 a b =
      ((debate_claim_pair env retrieval cache a b).1,
       (debate_claim_pair env retrieval cache a b).2.1, false) := by
  refine ⟨cacheKey_eq_if _ _, ?_, ?_⟩
  · apply debate_pair_hit
    rw [cacheKey_comm b.claim_id a.claim_id]
    exact debate_pair_stores_key env retrieval cache a b
  · apply debate_pair_hit
    exact debate_pair_stores_key env retrieval cache a b

/-! ## Ninth claim: untrained calibration -/

/-- C9: with no trained model, `calibrate(raw)` returns
`calibrated = raw * 0.9` together with the description of the band that
the cut-points 0.3 / 0.6 / 0.85 assign to the calibrated value
(Uncertain below 0.3, Weak below 0.6, Moderate below 0.85, High
otherwise), and the calibrated value stays in `[0, 1]`. -/
theorem calibrate_untrained (raw : ℚ) (h0 : 0 ≤ raw) (h1 : raw ≤ 1) :
    CalibrationLayer.calibrate { fitted := none } raw =
      (raw * (9 / 10), bandDesc (specBand (raw * (9 / 10)))) ∧
    0 ≤ raw * (9 / 10) ∧ raw * (9 / 10) ≤ 1 := by
  refine ⟨?_, ?_, ?_⟩
  · simp only [CalibrationLayer.calibrate, specBand, bandDesc]
    split_ifs <;> rfl
  · exact mul_nonneg h0 (by norm_num)
  · nlinarith

/-- Witness for C9 at `raw = 1/2`. -/
theorem calibrate_untrained_witness :
    CalibrationLayer.calibrate { fitted := none } (1 / 2) =
      ((1 / 2 : ℚ) * (9 / 10),
       bandDesc (specBand ((1 / 2 : ℚ) * (9 / 10)))) ∧
    0 ≤ (1 / 2 : ℚ) * (9 / 10) ∧ (1 / 2 : ℚ) * (9 / 10) ≤ 1 :=
  calibrate_untrained (1 / 2) (by norm_num) (by norm_num)

/-! ## Tenth claim: edges carry the raw adjudicator confidence -/

/-- C10: `add_relationship` stores on the created edge (both in the
backend and in the mirror) the `confidence` key of the debate-result
dict — the raw adjudicator confidence, defaulting to 0.5 when absent —
and is entirely insensitive to `calibrated_confidence`; consequently
`find_contradictions` and `find_frontier_edges` threshold against that
raw value. -/
theorem add_relationship_stores_raw_confidence (g : CausalGraphV2)
    (from_id to_id : String) (d : DebateDict) :
    (g.add_relationship from_id to_id d).backend.edges =
      g.backend.edges ++
        [{ edge_id := from_id ++ "-" ++ "RELATES" ++ "-" ++ to_id,
           src := from_id, dst := to_id, rel_type := "RELATES",
           properties :=
             { relation_type := d.verdict.getD "uncertain",
               confidence := d.confidence.getD (1 / 2),
               citations := d.citations.getD [],
               debate_log := d.debate_log.getD [] } }] ∧
    pyFind (g.add_relationship from_id to_id d).nx_edges
        (from_id, to_id) =
      some { relation_type := d.verdict.getD "uncertain",
             confidence := d.confidence.getD (1 / 2),
             citations := d.citations.getD [],
             debate_log := d.debate_log.getD [] } ∧
    (∀ c : Option ℚ,
      g.add_relationship from_id to_id
          { d with calibrated_confidence := c } =
        g.add_relationship from_id to_id d) ∧
    (∀ min_confidence : ℚ,
      (CausalGraphV2.initial.add_relationship from_id to_id
          d).find_contradictions min_confidence =
        (if d.verdict.getD "uncertain" = "refutes" ∧
            min_confidence ≤ d.confidence.getD (1 / 2)
         then [(from_id, to_id, d.citations.getD [])] else [])) ∧
    (∀ max_confidence : ℚ,
      (CausalGraphV2.initial.add_relationship from_id to_id
          d).find_frontier_edges max_confidence 0 =
        (if d.confidence.getD (1 / 2) < max_confidence
         then [{ claim_a_id := from_id, claim_b_id := to_id,
                 confidence := d.confidence.getD (1 / 2),
                 relation_type := d.verdict.getD "uncertain",
                 gap_type := classify_gap_type
                   { relation_type := d.verdict.getD "uncertain",
                     confidence := d.confidence.getD (1 / 2),
                     citations := d.citations.getD [],
                     debate_log := d.debate_log.getD [] } }]
         else [])) := by
  refine ⟨rfl, ?_, fun c => rfl, ?_, ?_⟩
  · simp only [CausalGraphV2.add_relationship]
    exact pyFind_pyInsert_self _ _ _
  · intro minc
    simp only [CausalGraphV2.find_contradictions,
      show (CausalGraphV2.initial.add_relationship from_id to_id d).nx_edges =
          [((from_id, to_id),
            { relation_type := d.verdict.getD "uncertain",
              confidence := d.confidence.getD (1 / 2),
              citations := d.citations.getD [],
              debate_log := d.debate_log.getD [] })] from rfl,
      List.filterMap_cons, List.filterMap_nil]
    by_cases hc : d.verdict.getD "uncertain" = "refutes" ∧
        minc ≤ d.confidence.getD (1 / 2)
    · rw [if_pos hc, if_pos hc]
    · rw [if_neg hc, if_neg hc]
  · intro maxc
    simp only [CausalGraphV2.find_frontier_edges,
      show (CausalGraphV2.initial.add_relationship from_id to_id d).nx_edges =
          [((from_id, to_id),
            { relation_type := d.verdict.getD "uncertain",
              confidence := d.confidence.getD (1 / 2),
              citations := d.citations.getD [],
              debate_log := d.debate_log.getD [] })] from rfl,
      List.filterMap_cons, List.filterMap_nil]
    by_cases hc : d.confidence.getD (1 / 2) < maxc
    · rw [if_pos ?side, if_pos hc]
      case side => exact ⟨hc, Nat.zero_le _, Nat.zero_le _⟩
    · rw [if_neg ?side, if_neg hc]
      case side =>
        intro hcontra
        exact hc hcontra.1

/-! ## Eighth claim: add_edge endpoint checking -/

/-- C8, as stated, is false on the code: `InMemoryBackend.add_edge` on
the empty backend — where both endpoints are absent from the node
store — does not fail with `UnknownEndpoint` (it has no failure path at
all); it returns the edge id and stores an edge whose endpoints do not
exist as nodes. -/
theorem add_edge_no_endpoint_check_counterexample :
    (InMemoryBackend.initial.add_edge "a" "b" "RELATES" sampleProps).1 =
      "a-RELATES-b" ∧
    (InMemoryBackend.initial.add_edge "a" "b" "RELATES"
        sampleProps).2.edges.length = 1 ∧
    pyFind (InMemoryBackend.initial.add_edge "a" "b" "RELATES"
        sampleProps).2.nodes "a" = none ∧
    pyFind (InMemoryBackend.initial.add_edge "a" "b" "RELATES"
        sampleProps).2.nodes "b" = none := by decide

/-- C8 (amended): `InMemoryBackend.add_edge(from_id, to_id, rel_type,
props)` never fails: for every backend state — in particular whenever
either endpoint id is absent from the node store — it returns the edge
id `from_id-rel_type-to_id`, appends the edge to the edge list, and
leaves the node store untouched, so stored edges may have endpoints that
do not exist as nodes. -/
theorem add_edge_appends_unconditionally (b : InMemoryBackend)
    (from_id to_id rel_type : String) (props : EdgeProps) :
    (b.add_edge from_id to_id rel_type props).1 =
      from_id ++ "-" ++ rel_type ++ "-" ++ to_id ∧
    (b.add_edge from_id to_id rel_type props).2.edges =
      b.edges ++
        [{ edge_id := from_id ++ "-" ++ rel_type ++ "-" ++ to_id,
           src := from_id, dst := to_id, rel_type := rel_type,
           properties := props }] ∧
    (b.add_edge from_id to_id rel_type props).2.nodes = b.nodes :=
  ⟨rfl, rfl, rfl⟩

/-! ## Fifth claim: arXiv version registration -/

/-- C5, as stated, is false on the code: after registering arXiv base id
`2103.12345` at version 2, a later registration at version 1 leaves the
record's version equal to 1, not `max 2 1 = 2` — `register_paper`
overwrites the row unconditionally. -/
theorem register_paper_version_counterexample :
    (pyFind dedupC5.arxiv_mapping "2103.12345").map ArxivRecord.version =
      some 1 ∧
    (pyFind dedupC5.arxiv_mapping "2103.12345").map ArxivRecord.version ≠
      some (max 2 1) := by with_unfolding_all decide

/-- C5 (amended): any later registration of an arXiv base id overwrites
the registry row with the paper id and version of the latest
registration, regardless of whether that version is lower than the one
recorded. -/
theorem register_paper_version_overwrites (e : DeduplicationEngine)
    (paper_id file_hash : String) (metadata : PaperMetadata)
    (embedding : Option (List ℚ)) (aid : String)
    (hx : extract_arxiv_id metadata = some aid) :
    pyFind (register_paper e paper_id file_hash metadata
        embedding).arxiv_mapping (parse_arxiv_version aid).1 =
      some { paper_id := paper_id,
             version := (parse_arxiv_version aid).2 } := by
  simp only [register_paper, hx]
  cases embedding with
  | none =>
    by_cases hd : metadata.doi.getD "" ≠ "" <;>
      simp [hd, pyFind_pyInsert_self]
  | some emb =>
    by_cases hd : metadata.doi.getD "" ≠ "" <;>
      by_cases he : emb ≠ [] <;>
        simp [hd, he, pyFind_pyInsert_self]

/-- Witness for the amended C5 theorem: registering `2103.12345v2` on a
fresh registry records version 2 under base id `2103.12345`. -/
theorem register_paper_version_overwrites_witness :
    pyFind (register_paper (DeduplicationEngine.initial false) "P1" "h1"
        (mdArxiv "2103.12345v2") none).arxiv_mapping
        (parse_arxiv_version "2103.12345v2").1 =
      some { paper_id := "P1",
             version := (parse_arxiv_version "2103.12345v2").2 } :=
  register_paper_version_overwrites (DeduplicationEngine.initial false)
    "P1" "h1" (mdArxiv "2103.12345v2") none "2103.12345v2"
    (by with_unfolding_all decide)

/-! ## Sixth claim: validation mode -/

/-- C6: the claim is right and the code is wrong.  The module's own
documentation says validation mode "logs duplicate detections but allows
ingestion" and `_apply_validation_mode` is documented to "log but return
NEW status", yet the semantic-duplicate branch of `check_duplicate`
returns without passing through `_apply_validation_mode`: in validation
mode a semantic duplicate keeps status `SEMANTIC_DUPLICATE` while the
hash, DOI and arXiv branches are flipped to `NEW` (second conjunct, the
same engine with a matching file hash).  The check itself writes no
registry table — `check_duplicate` is a pure function of the engine. -/
theorem check_duplicate_validation_semantic_bug :
    (check_duplicate dotOracle dedupC6 "h2" PaperMetadata.emptyDict
        (some [1]) (95 / 100)).status =
      DuplicateStatus.SEMANTIC_DUPLICATE ∧
    (check_duplicate dotOracle dedupC6 "h1" PaperMetadata.emptyDict
        none (95 / 100)).status = DuplicateStatus.NEW := by
  with_unfolding_all decide

/-! ## Fourth claim: the dedup decision order -/

theorem le_foldl_max_init (x b : ℚ) (xs : List ℚ) (h : b ≤ x) :
    b ≤ xs.foldl (fun p q => max p q) x := by
  induction xs generalizing x with
  | nil => simpa using h
  | cons y ys ih => exact ih (max x y) (le_trans h (le_max_left x y))

theorem le_foldl_max_mem (b : ℚ) (xs : List ℚ) (x : ℚ) (h : b ∈ xs) :
    b ≤ xs.foldl (fun p q => max p q) x := by
  induction xs generalizing x with
  | nil => simp at h
  | cons y ys ih =>
    rcases List.mem_cons.1 h with h1 | h1
    · subst h1
      exact le_foldl_max_init (max x b) b ys (le_max_right x b)
    · exact ih (max x y) h1

theorem foldl_max_mem (x : ℚ) (xs : List ℚ) :
    xs.foldl (fun p q => max p q) x ∈ x :: xs := by
  induction xs generalizing x with
  | nil => simp
  | cons y ys ih =>
    simp only [List.foldl_cons]
    have h := ih (max x y)
    rcases List.mem_cons.1 h with h1 | h1
    · rw [h1]
      rcases max_choice x y with hc | hc <;> rw [hc] <;> simp
    · simp [h1]

theorem npMax_spec (l : List ℚ) (hne : l ≠ []) :
    npMax l ∈ l ∧ ∀ a ∈ l, a ≤ npMax l := by
  cases l with
  | nil => exact absurd rfl hne
  | cons x xs =>
    constructor
    · exact foldl_max_mem x xs
    · intro a ha
      rcases List.mem_cons.1 ha with h | h
      · rw [h]
        exact le_foldl_max_init x x xs le_rfl
      · exact le_foldl_max_mem a xs x h

theorem getD_npArgmax (l : List ℚ) (hne : l ≠ []) :
    l.getD (npArgmax l) 0 = npMax l := by
  have hmem : npMax l ∈ l := (npMax_spec l hne).1
  have hlt : l.indexOf (npMax l) < l.length :=
    List.indexOf_lt_length.2 hmem
  rw [npArgmax, List.getD_eq_getElem?_getD, List.getElem?_eq_getElem hlt,
    List.getElem_indexOf hlt, Option.getD_some]

theorem semantic_any_iff (cos : List ℚ → ℚ) (vs : List (List ℚ)) (t : ℚ)
    (hne : vs ≠ []) :
    t ≤ (vs.map cos).getD (npArgmax (vs.map cos)) 0 ↔
      vs.any (fun v => decide (t ≤ cos v)) = true := by
  have hmapne : vs.map cos ≠ [] := by simpa using hne
  rw [getD_npArgmax _ hmapne]
  constructor
  · intro h
    rcases List.mem_map.1 ((npMax_spec _ hmapne).1) with ⟨v, hv, hveq⟩
    refine List.any_eq_true.2 ⟨v, hv, ?_⟩
    exact decide_eq_true (by rw [hveq]; exact h)
  · intro h
    rcases List.any_eq_true.1 h with ⟨v, hv, hvt⟩
    have hmem : cos v ∈ vs.map cos := List.mem_map.2 ⟨v, hv, rfl⟩
    exact le_trans (of_decide_eq_true hvt) ((npMax_spec _ hmapne).2 _ hmem)


theorem semantic_check_correct (cosine : CosineOracle)
    (e : DeduplicationEngine) (embedding : Option (List ℚ))
    (similarity_threshold : ℚ) :
    (semantic_check cosine e embedding similarity_threshold).status =
      specSemanticStatus cosine e embedding similarity_threshold ∧
    ((semantic_check cosine e embedding similarity_threshold).status =
        DuplicateStatus.SEMANTIC_DUPLICATE →
      ∃ emb, embedding = some emb ∧
        (semantic_check cosine e embedding
            similarity_threshold).existing_id =
          e.embedding_ids.get?
            (npArgmax (e.embedding_vectors.map (fun v => cosine emb v))) ∧
        (semantic_check cosine e embedding
            similarity_threshold).similarity_score =
          some (npMax (e.embedding_vectors.map (fun v => cosine emb v))) ∧
        ∀ x ∈ e.embedding_vectors.map (fun v => cosine emb v),
          x ≤ npMax (e.embedding_vectors.map (fun v => cosine emb v))) := by
  cases hemb : embedding with
  | none =>
    constructor
    · rfl
    · intro hst
      simp [semantic_check] at hst
  | some emb =>
    by_cases he : emb = []
    · constructor
      · simp [semantic_check, specSemanticStatus, he]
      · intro hst
        simp [semantic_check, he] at hst
    · by_cases hlen : 0 < e.embedding_vectors.length
      · have hne : e.embedding_vectors ≠ [] := List.length_pos.1 hlen
        have hmapne :
            e.embedding_vectors.map (fun v => cosine emb v) ≠ [] := by
          simpa using hne
        by_cases hthr : (e.embedding_vectors.map
              (fun v => cosine emb v)).getD
              (npArgmax (e.embedding_vectors.map
                (fun v => cosine emb v))) 0 ≥ similarity_threshold
        · have hany := (semantic_any_iff (fun v => cosine emb v)
            e.embedding_vectors similarity_threshold hne).1 hthr
          constructor
          · simp only [semantic_check, specSemanticStatus]
            rw [if_pos ⟨he, hlen⟩, if_pos hthr, if_pos ⟨he, hany⟩]
          · intro _
            refine ⟨emb, rfl, ?_, ?_, ?_⟩
            · simp only [semantic_check]
              rw [if_pos ⟨he, hlen⟩, if_pos hthr]
            · simp only [semantic_check]
              rw [if_pos ⟨he, hlen⟩, if_pos hthr]
              rw [show ((e.embedding_vectors.map
                  (fun v => cosine emb v)).getD
                  (npArgmax (e.embedding_vectors.map
                    (fun v => cosine emb v))) 0) =
                npMax (e.embedding_vectors.map (fun v => cosine emb v))
                from getD_npArgmax _ hmapne]
            · exact fun x hx => (npMax_spec _ hmapne).2 x hx
        · have hnotany : ¬ e.embedding_vectors.any
              (fun v => decide (similarity_threshold ≤ cosine emb v)) =
                true :=
            fun hc => hthr ((semantic_any_iff (fun v => cosine emb v)
              e.embedding_vectors similarity_threshold hne).2 hc)
          constructor
          · simp only [semantic_check, specSemanticStatus]
            rw [if_pos ⟨he, hlen⟩, if_neg hthr,
              if_neg (fun hc => hnotany hc.2)]
          · intro hst
            simp only [semantic_check] at hst
            rw [if_pos ⟨he, hlen⟩, if_neg hthr] at hst
            simp at hst
      · have hv0 : e.embedding_vectors = [] :=
          List.length_eq_zero.1 (Nat.eq_zero_of_not_pos hlen)
        constructor
        · simp [semantic_check, specSemanticStatus, he, hlen, hv0]
        · intro hst
          simp [semantic_check, he, hlen] at hst

/-- C4: with the validation flag off, the duplicate check decides by the
fixed order with first match winning — file-hash match → EXACT_DUPLICATE;
else DOI match → DOI_DUPLICATE; else arXiv match → VERSION_UPDATE on a
higher version and EXACT_DUPLICATE on an equal or lower one; else an
embedding whose cosine similarity against some stored embedding reaches
the threshold → SEMANTIC_DUPLICATE; otherwise NEW — and a semantic
duplicate reports the most similar existing id (first index attaining
the maximal similarity) together with that maximal similarity. -/
theorem check_duplicate_decision_order (cosine : CosineOracle)
    (e : DeduplicationEngine) (file_hash : String)
    (metadata : PaperMetadata) (embedding : Option (List ℚ))
    (similarity_threshold : ℚ)
    (hv : e.validation_mode = false) :
    (check_duplicate cosine e file_hash metadata embedding
        similarity_threshold).status =
      dedupSpecStatus cosine e file_hash metadata embedding
        similarity_threshold ∧
    ((check_duplicate cosine e file_hash metadata embedding
        similarity_threshold).status =
        DuplicateStatus.SEMANTIC_DUPLICATE →
      ∃ emb, embedding = some emb ∧
        (check_duplicate cosine e file_hash metadata embedding
            similarity_threshold).existing_id =
          e.embedding_ids.get?
            (npArgmax (e.embedding_vectors.map (fun v => cosine emb v))) ∧
        (check_duplicate cosine e file_hash metadata embedding
            similarity_threshold).similarity_score =
          some (npMax (e.embedding_vectors.map (fun v => cosine emb v))) ∧
        ∀ x ∈ e.embedding_vectors.map (fun v => cosine emb v),
          x ≤ npMax (e.embedding_vectors.map (fun v => cosine emb v))) := by
  have hval : ∀ r, apply_validation_mode e r = r := by
    intro r
    simp [apply_validation_mode, hv]
  cases h1 : pyFind e.file_hashes file_hash with
  | some pid =>
    have heq : check_duplicate cosine e file_hash metadata embedding
        similarity_threshold =
        apply_validation_mode e
          { status := DuplicateStatus.EXACT_DUPLICATE,
            existing_id := some pid, similarity_score := none,
            should_replace := false, version_info := none } := by
      unfold check_duplicate
      rw [h1]
    constructor
    · rw [heq, hval]
      simp [dedupSpecStatus, h1]
    · intro hst
      rw [heq, hval] at hst
      simp at hst
  | none =>
    by_cases h2 : metadata.doi.getD "" ≠ ""
    · cases h3 : pyFind e.doi_mapping (metadata.doi.getD "") with
      | some pid =>
        have heq : check_duplicate cosine e file_hash metadata embedding
            similarity_threshold =
            apply_validation_mode e
              { status := DuplicateStatus.DOI_DUPLICATE,
                existing_id := some pid, similarity_score := none,
                should_replace := false, version_info := none } := by
          unfold check_duplicate
          rw [h1]
          dsimp only
          rw [if_pos h2, h3]
        constructor
        · rw [heq, hval]
          simp [dedupSpecStatus, h1, h2, h3]
        · intro hst
          rw [heq, hval] at hst
          simp at hst
      | none =>
        cases h4 : extract_arxiv_id metadata with
        | some aid =>
          cases h5 : pyFind e.arxiv_mapping (parse_arxiv_version aid).1 with
          | some rec0 =>
            by_cases h6 : (parse_arxiv_version aid).2 > rec0.version
            · have heq : check_duplicate cosine e file_hash metadata
                  embedding similarity_threshold =
                  apply_validation_mode e
                    { status := DuplicateStatus.VERSION_UPDATE,
                      existing_id := some rec0.paper_id,
                      similarity_score := none, should_replace := true,
                      version_info := some
                        { arxiv_id := (parse_arxiv_version aid).1,
                          old_version := rec0.version,
                          new_version := (parse_arxiv_version aid).2,
                          old_paper_id := rec0.paper_id } } := by
                unfold check_duplicate
                rw [h1]
                dsimp only
                rw [if_pos h2, h3]
                dsimp only
                rw [h4]
                dsimp only
                rw [h5]
                dsimp only
                rw [if_pos h6]
              constructor
              · rw [heq, hval]
                simp [dedupSpecStatus, h1, h2, h3, h4, h5, h6]
              · intro hst
                rw [heq, hval] at hst
                simp at hst
            · have heq : check_duplicate cosine e file_hash metadata
                  embedding similarity_threshold =
                  apply_validation_mode e
                    { status := DuplicateStatus.EXACT_DUPLICATE,
                      existing_id := some rec0.paper_id,
                      similarity_score := none, should_replace := false,
                      version_info := none } := by
                unfold check_duplicate
                rw [h1]
                dsimp only
                rw [if_pos h2, h3]
                dsimp only
                rw [h4]
                dsimp only
                rw [h5]
                dsimp only
                rw [if_neg h6]
              constructor
              · rw [heq, hval]
                simp [dedupSpecStatus, h1, h2, h3, h4, h5, h6]
              · intro hst
                rw [heq, hval] at hst
                simp at hst
          | none =>
            have heq : check_duplicate cosine e file_hash metadata
                embedding similarity_threshold =
                semantic_check cosine e embedding similarity_threshold := by
              unfold check_duplicate
              rw [h1]
              dsimp only
              rw [if_pos h2, h3]
              dsimp only
              rw [h4]
              dsimp only
              rw [h5]
            have heq2 : dedupSpecStatus cosine e file_hash metadata
                embedding similarity_threshold =
                specSemanticStatus cosine e embedding
                  similarity_threshold := by
              unfold dedupSpecStatus
              simp [h1, h2, h3, h4, h5]
            constructor
            · rw [heq, heq2]
              exact (semantic_check_correct cosine e embedding
                similarity_threshold).1
            · intro hst
              rw [heq] at hst
              rw [heq]
              exact (semantic_check_correct cosine e embedding
                similarity_threshold).2 hst
        | none =>
          have heq : check_duplicate cosine e file_hash metadata
              embedding similarity_threshold =
              semantic_check cosine e embedding similarity_threshold := by
            unfold check_duplicate
            rw [h1]
            dsimp only
            rw [if_pos h2, h3]
            dsimp only
            rw [h4]
          have heq2 : dedupSpecStatus cosine e file_hash metadata
              embedding similarity_threshold =
              specSemanticStatus cosine e embedding
                similarity_threshold := by
            unfold dedupSpecStatus
            simp [h1, h2, h3, h4]
          constructor
          · rw [heq, heq2]
            exact (semantic_check_correct cosine e embedding
              similarity_threshold).1
          · intro hst
            rw [heq] at hst
            rw [heq]
            exact (semantic_check_correct cosine e embedding
              similarity_threshold).2 hst
    · cases h4 : extract_arxiv_id metadata with
      | some aid =>
        cases h5 : pyFind e.arxiv_mapping (parse_arxiv_version aid).1 with
        | some rec0 =>
          by_cases h6 : (parse_arxiv_version aid).2 > rec0.version
          · have heq : check_duplicate cosine e file_hash metadata
                embedding similarity_threshold =
                apply_validation_mode e
                  { status := DuplicateStatus.VERSION_UPDATE,
                    existing_id := some rec0.paper_id,
                    similarity_score := none, should_replace := true,
                    version_info := some
                      { arxiv_id := (parse_arxiv_version aid).1,
                        old_version := rec0.version,
                        new_version := (parse_arxiv_version aid).2,
                        old_paper_id := rec0.paper_id } } := by
              unfold check_duplicate
              rw [h1]
              dsimp only
              rw [if_neg h2]
              dsimp only
              rw [h4]
              dsimp only
              rw [h5]
              dsimp only
              rw [if_pos h6]
            constructor
            · rw [heq, hval]
              simp [dedupSpecStatus, h1, h2, h4, h5, h6]
            · intro hst
              rw [heq, hval] at hst
              simp at hst
          · have heq : check_duplicate cosine e file_hash metadata
                embedding similarity_threshold =
                apply_validation_mode e
                  { status := DuplicateStatus.EXACT_DUPLICATE,
                    existing_id := some rec0.paper_id,
                    similarity_score := none, should_replace := false,
                    version_info := none } := by
              unfold check_duplicate
              rw [h1]
              dsimp only
              rw [if_neg h2]
              dsimp only
              rw [h4]
              dsimp only
              rw [h5]
              dsimp only
              rw [if_neg h6]
            constructor
            · rw [heq, hval]
              simp [dedupSpecStatus, h1, h2, h4, h5, h6]
            · intro hst
              rw [heq, hval] at hst
              simp at hst
        | none =>
          have heq : check_duplicate cosine e file_hash metadata
              embedding similarity_threshold =
              semantic_check cosine e embedding similarity_threshold := by
            unfold check_duplicate
            rw [h1]
            dsimp only
            rw [if_neg h2]
            dsimp only
            rw [h4]
            dsimp only
            rw [h5]
          have heq2 : dedupSpecStatus cosine e file_hash metadata
              embedding similarity_threshold =
              specSemanticStatus cosine e embedding
                similarity_threshold := by
            unfold dedupSpecStatus
            simp [h1, h2, h4, h5]
          constructor
          · rw [heq, heq2]
            exact (semantic_check_correct cosine e embedding
              similarity_threshold).1
          · intro hst
            rw [heq] at hst
            rw [heq]
            exact (semantic_check_correct cosine e embedding
              similarity_threshold).2 hst
      | none =>
        have heq : check_duplicate cosine e file_hash metadata
            embedding similarity_threshold =
            semantic_check cosine e embedding similarity_threshold := by
          unfold check_duplicate
          rw [h1]
          dsimp only
          rw [if_neg h2]
          dsimp only
          rw [h4]
        have heq2 : dedupSpecStatus cosine e file_hash metadata
            embedding similarity_threshold =
            specSemanticStatus cosine e embedding similarity_threshold := by
          unfold dedupSpecStatus
          simp [h1, h2, h4]
        constructor
        · rw [heq, heq2]
          exact (semantic_check_correct cosine e embedding
            similarity_threshold).1
        · intro hst
          rw [heq] at hst
          rw [heq]
          exact (semantic_check_correct cosine e embedding
            similarity_threshold).2 hst

/-- Witness for C4: on an engine holding one embedding `[1]`, checking an
unseen hash with embedding `[1]` and threshold 0.95 is decided by the
spec order (a semantic duplicate), and the reported id is the most
similar stored one. -/
theorem check_duplicate_decision_order_witness :
    ((check_duplicate dotOracle dedupC4 "h2" PaperMetadata.emptyDict
        (some [1]) (95 / 100)).status =
      dedupSpecStatus dotOracle dedupC4 "h2" PaperMetadata.emptyDict
        (some [1]) (95 / 100)) ∧
    (∃ emb, (some [1] : Option (List ℚ)) = some emb ∧
      (check_duplicate dotOracle dedupC4 "h2" PaperMetadata.emptyDict
          (some [1]) (95 / 100)).existing_id =
        dedupC4.embedding_ids.get?
          (npArgmax (dedupC4.embedding_vectors.map
            (fun v => dotOracle emb v))) ∧
      (check_duplicate dotOracle dedupC4 "h2" PaperMetadata.emptyDict
          (some [1]) (95 / 100)).similarity_score =
        some (npMax (dedupC4.embedding_vectors.map
          (fun v => dotOracle emb v))) ∧
      ∀ x ∈ dedupC4.embedding_vectors.map (fun v => dotOracle emb v),
        x ≤ npMax (dedupC4.embedding_vectors.map
          (fun v => dotOracle emb v))) :=
  ⟨(check_duplicate_decision_order dotOracle dedupC4 "h2"
      PaperMetadata.emptyDict (some [1]) (95 / 100) rfl).1,
   (check_duplicate_decision_order dotOracle dedupC4 "h2"
      PaperMetadata.emptyDict (some [1]) (95 / 100) rfl).2
     (by with_unfolding_all decide)⟩

/-! ## Seventh claim: re-running a paper -/

/-- C7, as stated, is false on the code.  In a concrete two-claim run,
re-running `process_paper_stream` on the same paper bytes and paper id
doubles the vector rows (2 → 4; duplicate indexing does not fail) and
appends two further edges to the graph store (2 → 4), because the cached
debate result is still passed to `add_relationship`; only the
adjudication cache (1 entry) and the metadata table (2 rows) gain
nothing. -/
theorem process_paper_stream_rerun_counterexample :
    c7Run1.graph.backend.edges.length = 2 ∧
    c7Run2.graph.backend.edges.length = 4 ∧
    c7Run1.retrieval.ntotal = 2 ∧
    c7Run2.retrieval.ntotal = 4 ∧
    c7Run1.cache.length = 1 ∧
    c7Run2.cache.length = 1 ∧
    c7Run1.retrieval.id_to_metadata.length = 2 ∧
    c7Run2.retrieval.id_to_metadata.length = 2 := by
  with_unfolding_all decide

theorem foldl_step_retrieval {β : Type}
    (f : PipelineState → β → PipelineState)
    (hf : ∀ st x, (f st x).retrieval = st.retrieval)
    (l : List β) (s : PipelineState) :
    (l.foldl f s).retrieval = s.retrieval := by
  induction l generalizing s with
  | nil => rfl
  | cons x xs ih => rw [List.foldl_cons, ih, hf]

theorem foldl_preserves {β : Type} (P : PipelineState → Prop)
    (f : PipelineState → β → PipelineState)
    (hf : ∀ st x, P st → P (f st x)) :
    ∀ (l : List β) (s : PipelineState), P s → P (l.foldl f s) := by
  intro l
  induction l with
  | nil => exact fun s hs => hs
  | cons x xs ih => exact fun s hs => ih (f s x) (hf s x hs)

theorem async_debate_claim_retrieval (env : PipelineEnv)
    (s : PipelineState) (c : ClaimDict) :
    (async_debate_claim env s c).retrieval = s.retrieval := by
  unfold async_debate_claim
  apply foldl_step_retrieval
  intro st x
  by_cases h1 : x.claim_id = c.claim_id
  · rw [if_pos h1]
  · rw [if_neg h1]
    by_cases h2 : should_debate_claims env.debate.ann st.retrieval c
        x.metadata = true
    · rw [if_pos h2]
    · rw [if_neg h2]

theorem debate_pair_preserves_cache (env : DebateEnv)
    (retrieval : RetrievalEngine ClaimDict)
    (cache : List (String × DebateResult)) (a b : ClaimDict)
    (k : String) (r : DebateResult) (h : pyFind cache k = some r) :
    pyFind (debate_claim_pair env retrieval cache a b).2.1 k = some r := by
  unfold debate_claim_pair
  cases hm : pyFind cache (cacheKey a.claim_id b.claim_id) with
  | some q => simpa [hm] using h
  | none =>
    have hk : cacheKey a.claim_id b.claim_id ≠ k := by
      intro he
      rw [he, h] at hm
      exact Option.noConfusion hm
    have hins : ∀ v : DebateResult,
        pyFind (pyInsert cache (cacheKey a.claim_id b.claim_id) v) k =
          some r := by
      intro v
      rw [pyFind_pyInsert_ne cache _ k v hk]
      exact h
    cases ha : a.specter2_embedding with
    | none => simp [hm, ha, hins]
    | some ea =>
      cases hb : b.specter2_embedding with
      | none => simp [hm, ha, hb, hins]
      | some eb =>
        by_cases h1 : npDot ea eb < 3 / 10
        · simp [hm, ha, hb, h1, hins]
        · by_cases h2 : npDot ea eb > 95 / 100 <;>
            simp [hm, ha, hb, h1, h2, hins]

theorem async_debate_claim_cache_preserved (env : PipelineEnv)
    (s : PipelineState) (c : ClaimDict) (k : String) (r : DebateResult)
    (h : pyFind s.cache k = some r) :
    pyFind (async_debate_claim env s c).cache k = some r := by
  unfold async_debate_claim
  refine foldl_preserves (fun st => pyFind st.cache k = some r) _ ?_ _ s h
  intro st x hst
  by_cases h1 : x.claim_id = c.claim_id
  · rw [if_pos h1]
    exact hst
  · rw [if_neg h1]
    by_cases h2 : should_debate_claims env.debate.ann st.retrieval c
        x.metadata = true
    · rw [if_pos h2]
      exact debate_pair_preserves_cache env.debate st.retrieval st.cache c
        x.metadata k r hst
    · rw [if_neg h2]
      exact hst

theorem add_relationship_edges_grow (g : CausalGraphV2) (fi ti : String)
    (d : DebateDict) (base t : List BackendEdge)
    (h : g.backend.edges = base ++ t) :
    ∃ t2, (g.add_relationship fi ti d).backend.edges = base ++ t2 := by
  have hstep : (g.add_relationship fi ti d).backend.edges =
      g.backend.edges ++
        [{ edge_id := fi ++ "-" ++ "RELATES" ++ "-" ++ ti,
           src := fi, dst := ti, rel_type := "RELATES",
           properties :=
             { relation_type := d.verdict.getD "uncertain",
               confidence := d.confidence.getD (1 / 2),
               citations := d.citations.getD [],
               debate_log := d.debate_log.getD [] } }] := rfl
  rw [hstep, h, List.append_assoc]
  exact ⟨_, rfl⟩

theorem async_debate_claim_edges (env : PipelineEnv) (s : PipelineState)
    (c : ClaimDict) :
    ∃ t, (async_debate_claim env s c).graph.backend.edges =
      s.graph.backend.edges ++ t := by
  unfold async_debate_claim
  refine foldl_preserves
    (fun st => ∃ t, st.graph.backend.edges =
      s.graph.backend.edges ++ t) _ ?_ _ s ⟨[], by simp⟩
  intro st x hst
  obtain ⟨t, ht⟩ := hst
  by_cases h1 : x.claim_id = c.claim_id
  · rw [if_pos h1]
    exact ⟨t, ht⟩
  · rw [if_neg h1]
    by_cases h2 : should_debate_claims env.debate.ann st.retrieval c
        x.metadata = true
    · rw [if_pos h2]
      exact add_relationship_edges_grow st.graph c.claim_id x.claim_id _
        _ t ht
    · rw [if_neg h2]
      exact ⟨t, ht⟩

theorem foldl_index_ntotal (l : List ClaimDict)
    (e : RetrievalEngine ClaimDict) :
    (l.foldl (fun e2 cd => e2.index_claim cd.claim_id
        (cd.specter2_embedding.getD []) cd) e).ntotal =
      e.ntotal + l.length := by
  induction l generalizing e with
  | nil => simp
  | cons x xs ih =>
    have hone : (RetrievalEngine.index_claim e x.claim_id
        (x.specter2_embedding.getD []) x).ntotal = e.ntotal + 1 := by
      simp [RetrievalEngine.index_claim, RetrievalEngine.ntotal]
    rw [List.foldl_cons, ih, hone]
    simp
    omega

theorem foldl_index_metadata_length (l : List ClaimDict)
    (e : RetrievalEngine ClaimDict)
    (h : ∀ cd ∈ l, (pyFind e.id_to_metadata cd.claim_id).isSome) :
    (l.foldl (fun e2 cd => e2.index_claim cd.claim_id
        (cd.specter2_embedding.getD []) cd) e).id_to_metadata.length =
      e.id_to_metadata.length := by
  induction l generalizing e with
  | nil => rfl
  | cons x xs ih =>
    have hx := h x (List.mem_cons_self x xs)
    have hrest : ∀ cd ∈ xs,
        (pyFind (RetrievalEngine.index_claim e x.claim_id
          (x.specter2_embedding.getD []) x).id_to_metadata
          cd.claim_id).isSome := by
      intro cd hcd
      exact pyFind_pyInsert_isSome _ _ _ _ (h cd (List.mem_cons_of_mem x hcd))
    rw [List.foldl_cons, ih _ hrest]
    exact pyInsert_length_of_isSome _ _ _ hx

/-- C7 (amended): re-running `process_paper_stream` on the same paper
bytes and paper id adds no new entry to the adjudication cache for an
already-debated pair (every stored cache entry survives unchanged and is
returned on hit) and no second metadata row for any already-indexed
claim, but duplicate indexing does not fail: every run appends one fresh
vector row per extracted claim (so a re-run gives each claim a second
row), and the graph store only ever grows — each re-debated pair appends
its edge again because the cached result is still handed to
`add_relationship`. -/
theorem process_paper_stream_rerun_behavior (env : PipelineEnv)
    (s : PipelineState) (text paper_id : String)
    (hmeta : ∀ c ∈ env.extractor text paper_id,
      (pyFind s.retrieval.id_to_metadata
        (paper_id ++ "_" ++ toString (env.pyHash c.text % 100000))).isSome) :
    (process_paper_stream env s text paper_id).retrieval.ntotal =
      s.retrieval.ntotal + (env.extractor text paper_id).length ∧
    (process_paper_stream env s text
        paper_id).retrieval.id_to_metadata.length =
      s.retrieval.id_to_metadata.length ∧
    (∀ k r, pyFind s.cache k = some r →
      pyFind (process_paper_stream env s text paper_id).cache k = some r) ∧
    (∃ t, (process_paper_stream env s text paper_id).graph.backend.edges =
      s.graph.backend.edges ++ t) := by
  unfold process_paper_stream
  dsimp only
  cases hx : (env.extractor text paper_id).isEmpty with
  | true =>
    rw [if_pos rfl]
    have h0 : env.extractor text paper_id = [] := by
      simpa using hx
    refine ⟨?_, rfl, fun k r h => h, ⟨[], by simp⟩⟩
    rw [h0]
    simp
  | false =>
    rw [if_neg (by simp)]
    refine ⟨?_, ?_, ?_, ?_⟩
    · rw [foldl_step_retrieval _ (async_debate_claim_retrieval env)]
      dsimp only
      rw [foldl_index_ntotal, List.length_map]
    · rw [foldl_step_retrieval _ (async_debate_claim_retrieval env)]
      dsimp only
      apply foldl_index_metadata_length
      intro cd hcd
      rcases List.mem_map.1 hcd with ⟨c, hc, rfl⟩
      exact hmeta c hc
    · intro k r h
      exact foldl_preserves (fun st => pyFind st.cache k = some r) _
        (fun st x hst =>
          async_debate_claim_cache_preserved env st x k r hst) _ _ h
    · refine foldl_preserves (fun st => ∃ t, st.graph.backend.edges =
        s.graph.backend.edges ++ t) _ ?_ _ _ ⟨[], by simp⟩
      intro st x hst
      obtain ⟨t, ht⟩ := hst
      obtain ⟨t2, ht2⟩ := async_debate_claim_edges env st x
      exact ⟨t ++ t2, by rw [ht2, ht, List.append_assoc]⟩

/-- Witness for the amended C7 theorem at the concrete two-claim re-run:
the second run adds two vector rows, no metadata row, keeps the cached
result for the pair `P_1`/`P_2`, and only appends to the edge store. -/
theorem process_paper_stream_rerun_behavior_witness :
    c7Run2.retrieval.ntotal = c7Run1.retrieval.ntotal + 2 ∧
    c7Run2.retrieval.id_to_metadata.length =
      c7Run1.retrieval.id_to_metadata.length ∧
    pyFind c7Run2.cache (cacheKey "P_1" "P_2") =
      some highSimilarityResult ∧
    (∃ t, c7Run2.graph.backend.edges =
      c7Run1.graph.backend.edges ++ t) := by
  have h := process_paper_stream_rerun_behavior c7Env c7Run1 "text" "P"
    (by with_unfolding_all decide)
  exact ⟨h.1, h.2.1,
    h.2.2.1 (cacheKey "P_1" "P_2") highSimilarityResult
      (by with_unfolding_all decide), h.2.2.2⟩
